import Mathlib

/-!
Shallow embedding of the whale-analyzooor-telegram swap-filtering pipeline.

Sources embedded: `src/filters.js` (class FilterEngine: processFilters,
matchesFilters, isBuyTransaction, calculateSwapValueUSD, checkTokenWhitelist,
checkBlacklist, checkWhaleBlacklist, checkMinimumPurchase, checkMarketCap),
`src/bot.js` (checkForNewSwaps: first-mention detection, per-user evaluation
loop, first-mention commit loop), and `src/database-railway.js`
(isTokenKnown, markTokenAsFirstMentioned).

Modelling conventions:
- JavaScript numbers are modelled as rationals (`ℚ`); the claims under study
  are about control flow and exact comparisons, not rounding.
- `undefined` / `null` / absent fields are modelled with `Option`.
- Network results (the dual Jupiter/DexScreener lookup performed by
  `getTokenData`) are modelled by an explicit oracle `env : Option String →
  TokenData`, keyed by mint; the per-cycle `tokenDataCache` by
  `cache : String → Option TokenData`.  The expression
  `tokenDataCache?.get(mint) || await this.getTokenData(mint, symbol)`
  becomes `resolveTokenData cache env mint`.
- Thrown JavaScript exceptions are modelled with `Except JsError`.
  In the source, `getTokenSymbol` is an `async` method; `matchesFilters`
  (filters.js lines 197-198) and `checkTokenWhitelist` / `checkBlacklist`
  (lines 377, 390) invoke it WITHOUT `await`.  The value at those call sites
  is therefore a Promise object, never a string: strict equality with a
  string is `false`, and calling `.toLowerCase()` on it throws a TypeError.
  The embedding models this with `JsVal.promise` and with `Except.error`.
- The database-backed known-tokens table is a list of
  (token_mint, token_symbol) pairs; the happy path (no connection errors)
  is modelled.
-/

namespace WhaleBot

/-- A traded token as it appears in a swap from the feed (`inputToken` /
`outputToken`): mint address, optional `metadata.symbol`, optional
`metadata.name`, traded amount. -/
structure TokenRef where
  mint : Option String
  metadataSymbol : Option String
  metadataName : Option String
  amount : ℚ
  deriving Repr, DecidableEq

/-- A swap event from the feed. -/
structure Swap where
  signature : Option String
  timestamp : Nat
  feePayer : Option String
  inputToken : Option TokenRef
  outputToken : Option TokenRef
  deriving Repr, DecidableEq

/-- One raw filter row from the `user_filters` table. -/
structure FilterRow where
  filter_type : String
  filter_value : String
  deriving Repr, DecidableEq

/-- The processed per-user filter profile produced by `processFilters`. -/
structure Filters where
  tokens : List String
  blacklist : List String
  whale_blacklist : List String
  min_purchase : Option ℚ
  max_market_cap : Option ℚ
  monitor_all : Bool
  notifications_enabled : Bool
  first_mention_only : Bool
  deriving Repr, DecidableEq

/-- Enriched token data as stored in the per-cycle `tokenDataCache` or
returned by `getTokenData` (price, market cap, 24h change, hardcoded-supply
flag, optional symbol). -/
structure TokenData where
  price : ℚ
  marketCap : ℚ
  priceChange24h : ℚ
  isHardcodedSupply : Bool
  symbol : Option String
  deriving Repr, DecidableEq

/-- The `{ matches, isFirstMention }` object returned by `matchesFilters`.
The source field `matches` is spelled `matched` here because `matches` is
reserved syntax in Lean. -/
structure MatchResult where
  matched : Bool
  isFirstMention : Bool
  deriving Repr, DecidableEq

/-- A thrown JavaScript exception. -/
inductive JsError where
  | typeError (msg : String)
  deriving Repr, DecidableEq

/-- A JavaScript value as observed at the call sites in `matchesFilters`
lines 197-198, where the async `getTokenSymbol` is invoked without `await`:
the local is a Promise object, not a string. -/
inductive JsVal where
  | promise
  | str (s : String)
  deriving Repr, DecidableEq

/-- JavaScript strict equality `v === s` between such a value and a string
literal: a Promise is never strictly equal to a string. -/
def jsEqStr : JsVal → String → Bool
  | JsVal.promise, _ => false
  | JsVal.str a, b => a = b

/-- JavaScript `list.includes(v)` where `v` may be a Promise: `includes`
uses SameValueZero, so a Promise is never found among strings. -/
def jsMemList (l : List String) : JsVal → Bool
  | JsVal.promise => false
  | JsVal.str a => l.contains a

/-- The stablecoin list of the SOL-conversion filter, filters.js line 196. -/
def convStablecoins : List String := ["USDC", "USDT", "BUSD", "USD1", "DAI", "FRAX"]

/-- The stablecoin list of `isBuyTransaction`, filters.js line 308. -/
def buyStablecoins : List String := ["USDC", "USDT", "BUSD", "USD1"]

/-- The stablecoin list of `calculateSwapValueUSD`, filters.js lines 327/349. -/
def valueStablecoins : List String := ["USDC", "USDT", "BUSD", "DAI", "FRAX", "USD1"]

/-- Hardcoded problematic-token blocklist, filters.js lines 214-216. -/
def hardcodedTokenBlacklist : List String := ["EJhqXKJEncSx1HJjS5ZpKdiKGGgLiRgNPvo8JZvw5Guj"]

/-- Hardcoded whale blocklist, filters.js lines 265-267. -/
def hardcodedWhaleBlacklist : List String := ["MfDuWeqSHEqTFVYZ7LoexgAK9dxk7cy4DFJWjWMGVWa"]

/-- The wrapped-SOL mint used for the SOL price lookup. -/
def solMint : String := "So11111111111111111111111111111111111111112"

/-- `tokenDataCache?.get(mint) || await this.getTokenData(mint, symbol)`:
cache hit wins (a present object is truthy), otherwise the dual-API network
result, represented by the oracle `env`. -/
def resolveTokenData (cache : String → Option TokenData)
    (env : Option String → TokenData) (mint? : Option String) : TokenData :=
  match mint? with
  | some m =>
    match cache m with
    | some d => d
    | none => env (some m)
  | none => env none

/-- `parseFloat` as used by `processFilters` on `min_purchase` /
`max_market_cap` rows: leading whitespace, optional sign, decimal digits with
an optional fraction, ignoring trailing garbage.  `none` models NaN (no
digits at all); NaN and null are interchangeable in every use site because
both are falsy.  (The exponent form is not modelled; the bot's input
validation only ever stores plain positive integers for these rows.) -/
def digitsToNat (ds : List Char) : Nat :=
  ds.foldl (fun n c => n * 10 + (c.toNat - 48)) 0

def parseFloatJs (s : String) : Option ℚ :=
  let cs := s.toList.dropWhile fun c => c = ' ' ∨ c = '\t' ∨ c = '\n'
  let signed : Bool × List Char :=
    match cs with
    | '-' :: rest => (true, rest)
    | '+' :: rest => (false, rest)
    | _ => (false, cs)
  let intPart := signed.2.takeWhile Char.isDigit
  let afterInt := signed.2.dropWhile Char.isDigit
  let fracPart : List Char :=
    match afterInt with
    | '.' :: rest => rest.takeWhile Char.isDigit
    | _ => []
  if intPart.isEmpty ∧ fracPart.isEmpty then none
  else
    let v : ℚ := (digitsToNat intPart : ℚ) + (digitsToNat fracPart : ℚ) / ((10 : ℚ) ^ fracPart.length)
    some (if signed.1 then -v else v)

/-- The default profile built at the top of `processFilters`,
filters.js lines 15-24. -/
def defaultFilters : Filters :=
  { tokens := []
    blacklist := []
    whale_blacklist := []
    min_purchase := none
    max_market_cap := none
    monitor_all := true
    notifications_enabled := false
    first_mention_only := false }

/-- One step of the `dbFilters.forEach` switch, filters.js lines 32-61. -/
def applyFilterRow (f : Filters) (r : FilterRow) : Filters :=
  if r.filter_type = "token_whitelist" then { f with tokens := f.tokens ++ [r.filter_value] }
  else if r.filter_type = "token_blacklist" then { f with blacklist := f.blacklist ++ [r.filter_value] }
  else if r.filter_type = "whale_blacklist" then { f with whale_blacklist := f.whale_blacklist ++ [r.filter_value] }
  else if r.filter_type = "min_purchase" then { f with min_purchase := parseFloatJs r.filter_value }
  else if r.filter_type = "max_market_cap" then { f with max_market_cap := parseFloatJs r.filter_value }
  else if r.filter_type = "monitor_all" then { f with monitor_all := r.filter_value = "true" }
  else if r.filter_type = "notifications_enabled" then { f with notifications_enabled := r.filter_value = "true" }
  else if r.filter_type = "first_mention_only" then { f with first_mention_only := r.filter_value = "true" }
  else f

/-- `processFilters(dbFilters)`, filters.js lines 14-64.  `none` models a
null / undefined / non-array argument (the `!dbFilters ||
!Array.isArray(dbFilters)` early return). -/
def processFilters (dbFilters : Option (List FilterRow)) : Filters :=
  match dbFilters with
  | none => defaultFilters
  | some rows => rows.foldl applyFilterRow defaultFilters

/-- `isBuyTransaction(swap)`, filters.js lines 307-318: no output token or a
stablecoin output is a sell; otherwise a buy exactly when the output symbol
is not SOL (an absent symbol compares unequal to SOL, hence a buy). -/
def isBuyTransaction (swap : Swap) : Bool :=
  match swap.outputToken with
  | none => false
  | some t =>
    if (match t.metadataSymbol with
        | some s => buyStablecoins.contains s
        | none => false) then false
    else decide (t.metadataSymbol ≠ some ("SOL"))

/-- The relevant token of a swap: output for a buy, input for a sell
(filters.js line 224). -/
def relevantTokenOf (swap : Swap) : Option TokenRef :=
  if isBuyTransaction swap then swap.outputToken else swap.inputToken

/-- One side of `calculateSwapValueUSD` (filters.js lines 326-345 for the
input token; lines 348-367 repeat the identical block for the output token):
entered only when `metadata.symbol` is truthy; a stablecoin amount is the
value directly; SOL uses the resolved price with the 220 fallback when the
price is 0 (falsy); otherwise the resolved price when strictly positive,
guarded by a truthy mint.  `none` means the block falls through. -/
def tryTokenValueUSD (cache : String → Option TokenData)
    (env : Option String → TokenData) (token? : Option TokenRef) : Option ℚ :=
  match token? with
  | none => none
  | some t =>
    match t.metadataSymbol with
    | none => none
    | some sym =>
      if sym = "" then none
      else if valueStablecoins.contains sym then some t.amount
      else if sym = "SOL" then
        let solData := resolveTokenData cache env (some solMint)
        some (t.amount * (if solData.price = 0 then 220 else solData.price))
      else
        match t.mint with
        | none => none
        | some m =>
          if m = "" then none
          else
            let tokenData := resolveTokenData cache env (some m)
            if 0 < tokenData.price then some (t.amount * tokenData.price) else none

/-- `calculateSwapValueUSD(swap, tokenDataCache)`, filters.js lines 321-370:
input token first, output token second, 0 when neither yields a value. -/
def calculateSwapValueUSD (swap : Swap) (cache : String → Option TokenData)
    (env : Option String → TokenData) : ℚ :=
  match tryTokenValueUSD cache env swap.inputToken with
  | some v => v
  | none =>
    match tryTokenValueUSD cache env swap.outputToken with
    | some v => v
    | none => 0

/-- `checkTokenWhitelist(token, allowedTokens)`, filters.js lines 373-384.
An empty whitelist returns false before anything else; with a non-empty
whitelist the next statement is `this.getTokenSymbol(token).toLowerCase()`,
and since `getTokenSymbol` is async the receiver is a Promise, so the call
throws a TypeError (the comparison code below it is unreachable). -/
def checkTokenWhitelist (_token : TokenRef) (allowedTokens : List String) :
    Except JsError Bool :=
  if allowedTokens.isEmpty then Except.ok false
  else Except.error (JsError.typeError ("this.getTokenSymbol(...).toLowerCase is not a function"))

/-- `checkBlacklist(token, blacklistedTokens)`, filters.js lines 387-397.
An empty blacklist allows everything; a non-empty blacklist reaches the same
unawaited `getTokenSymbol(...).toLowerCase()` and throws. -/
def checkBlacklist (_token : TokenRef) (blacklistedTokens : List String) :
    Except JsError Bool :=
  if blacklistedTokens.isEmpty then Except.ok true
  else Except.error (JsError.typeError ("this.getTokenSymbol(...).toLowerCase is not a function"))

/-- `checkWhaleBlacklist(whaleAddress, blacklistedWhales)`, filters.js
lines 400-406 (an undefined address compares unequal to every entry). -/
def checkWhaleBlacklist (whaleAddress : Option String)
    (blacklistedWhales : List String) : Bool :=
  if blacklistedWhales.isEmpty then true
  else !(blacklistedWhales.any fun b =>
    match whaleAddress with
    | some w => b.toLower = w.toLower
    | none => false)

/-- `checkMinimumPurchase(swapValueUSD, minPurchase)`, filters.js
lines 409-412 (null, NaN, zero and negative minimums are all no-ops). -/
def checkMinimumPurchase (swapValueUSD : ℚ) (minPurchase : Option ℚ) : Bool :=
  match minPurchase with
  | none => true
  | some mp => if mp ≤ 0 then true else decide (swapValueUSD ≥ mp)

/-- `checkMarketCap(token, maxMarketCap, tokenDataCache)`, filters.js
lines 415-445.  The unset / non-positive filter passes; otherwise the
resolved market cap must be non-zero and at most the bound (the
hardcoded-supply branch performs the identical test).  The catch clause is
unreachable here: the only awaited call, `getTokenData`, traps its own
errors, and `token` is non-null at every call site. -/
def checkMarketCap (token : TokenRef) (maxMarketCap : Option ℚ)
    (cache : String → Option TokenData) (env : Option String → TokenData) : Bool :=
  match maxMarketCap with
  | none => true
  | some mmc =>
    if mmc ≤ 0 then true
    else
      let tokenData := resolveTokenData cache env token.mint
      if tokenData.isHardcodedSupply then
        if tokenData.marketCap = 0 then false
        else decide (tokenData.marketCap ≤ mmc)
      else
        if tokenData.marketCap = 0 then false
        else decide (tokenData.marketCap ≤ mmc)

/-- The in-memory `userProcessedSwaps` map (per-user delivery history):
user id, then the insertion-ordered set of recorded swap ids.  A missing
user is indistinguishable from an empty set in every read, so the
`set(userId, new Set())` initialisation needs no separate modelling. -/
abbrev EngineState := List (Nat × List String)

def stateGet : EngineState → Nat → List String
  | [], _ => []
  | (v, l) :: rest, u => if v = u then l else stateGet rest u

def stateSet (st : EngineState) (u : Nat) (l : List String) : EngineState :=
  (u, l) :: st.filter fun p => p.1 != u

/-- The fallback swap id template string, filters.js line 181:
a missing feePayer renders as the string undefined. -/
def fallbackId (swap : Swap) : String :=
  toString swap.timestamp ++ "-" ++ (match swap.feePayer with | some f => f | none => "undefined")

/-- `swap.signature || template` (an empty signature is falsy). -/
def swapIdOf (swap : Swap) : String :=
  match swap.signature with
  | some s => if s = "" then fallbackId swap else s
  | none => fallbackId swap

/-- `pat` is a character-wise prefix of `s` (JavaScript
`s.startsWith(pat)`, written out structurally). -/
def charsLeadEq : List Char → List Char → Bool
  | [], _ => true
  | _ :: _, [] => false
  | a :: pas, b :: bs => a = b && charsLeadEq pas bs

def strLeadsWith (s pat : String) : Bool :=
  charsLeadEq pat.toList s.toList

/-- `inputMint && inputMint.startsWith('Xs')`, filters.js line 209. -/
def isSpamMint (mint? : Option String) : Bool :=
  match mint? with
  | some m => strLeadsWith m ("Xs")
  | none => false

/-- `hardcodedBlacklist.includes(mint)`, filters.js line 218. -/
def inHardTokenBlacklist (mint? : Option String) : Bool :=
  match mint? with
  | some m => hardcodedTokenBlacklist.contains m
  | none => false

/-- `hardcodedWhaleBlacklist.includes(swap.feePayer)`, filters.js line 269. -/
def isHardcodedWhale (feePayer? : Option String) : Bool :=
  match feePayer? with
  | some w => hardcodedWhaleBlacklist.contains w
  | none => false

/-- The first-mention flag computation, filters.js lines 230-239: a null
`firstMentionTokens` yields false; otherwise either (truthy) mint is a
member.  (When both sides are falsy the JS local is `undefined`, which every
consumer treats as false.) -/
def firstMentionFlag (swap : Swap) (firstMentionTokens : Option (List String)) : Bool :=
  match firstMentionTokens with
  | none => false
  | some fm =>
    (match swap.inputToken.bind TokenRef.mint with
     | some m => !(m = "") && fm.contains m
     | none => false) ||
    (match swap.outputToken.bind TokenRef.mint with
     | some m => !(m = "") && fm.contains m
     | none => false)

/-- `matchesFilters(swap, userFilters, database, firstMentionTokens, userId,
tokenDataCache)`, filters.js lines 174-304, following the source's statement
order exactly.  The `database` parameter is unused in the source and
omitted.  At lines 197-198 `getTokenSymbol` is called without `await`, so
`inputSymbol` / `outputSymbol` are Promise objects (`JsVal.promise`); the
SOL-stablecoin conversion test at lines 200-203 compares them with strings
and can therefore never fire.  The whitelist / blacklist checks may throw
(see `checkTokenWhitelist`), which aborts the call before the history is
mutated (the only mutation sits at the end of the match branch). -/
def matchesFilters (st : EngineState) (swap : Swap) (userFilters : Filters)
    (firstMentionTokens : Option (List String)) (userId : Nat)
    (cache : String → Option TokenData) (env : Option String → TokenData) :
    Except JsError (MatchResult × EngineState) :=
  if !userFilters.notifications_enabled then Except.ok (⟨false, false⟩, st)
  else
    let swapId := swapIdOf swap
    if (stateGet st userId).contains swapId then Except.ok (⟨false, false⟩, st)
    else
      let inputSymbol := JsVal.promise
      let outputSymbol := JsVal.promise
      if (jsEqStr inputSymbol ("SOL") && jsMemList convStablecoins outputSymbol)
          || (jsEqStr outputSymbol ("SOL") && jsMemList convStablecoins inputSymbol) then
        Except.ok (⟨false, false⟩, st)
      else
        let inputMint := swap.inputToken.bind TokenRef.mint
        let outputMint := swap.outputToken.bind TokenRef.mint
        if isSpamMint inputMint || isSpamMint outputMint then Except.ok (⟨false, false⟩, st)
        else if inHardTokenBlacklist inputMint || inHardTokenBlacklist outputMint then
          Except.ok (⟨false, false⟩, st)
        else
          let swapAmountUSD := calculateSwapValueUSD swap cache env
          match relevantTokenOf swap with
          | none => Except.ok (⟨false, false⟩, st)
          | some relevantToken =>
            let isFirstMention := firstMentionFlag swap firstMentionTokens
            if userFilters.first_mention_only && !isFirstMention then
              Except.ok (⟨false, false⟩, st)
            else
              match (if userFilters.monitor_all then
                      checkBlacklist relevantToken userFilters.blacklist
                     else checkTokenWhitelist relevantToken userFilters.tokens) with
              | Except.error e => Except.error e
              | Except.ok tokenCheck =>
                if isHardcodedWhale swap.feePayer then Except.ok (⟨false, false⟩, st)
                else
                  let whaleCheck := checkWhaleBlacklist swap.feePayer userFilters.whale_blacklist
                  let marketCapCheck :=
                    if (match userFilters.max_market_cap with
                        | some m => decide (0 < m)
                        | none => false) then
                      checkMarketCap relevantToken userFilters.max_market_cap cache env
                    else true
                  let ok := tokenCheck && whaleCheck
                    && checkMinimumPurchase swapAmountUSD userFilters.min_purchase
                    && marketCapCheck
                  if ok then
                    let added := stateGet st userId ++ [swapId]
                    let trimmed := if added.length > 100 then added.drop 50 else added
                    Except.ok (⟨true, isFirstMention⟩, stateSet st userId trimmed)
                  else Except.ok (⟨ok, isFirstMention⟩, st)

/-- `shouldNotify(userId, swap, userFilters, database, firstMentionTokens,
tokenDataCache)`, filters.js lines 8-11. -/
def shouldNotify (st : EngineState) (userId : Nat) (swap : Swap)
    (userFilters : Option (List FilterRow)) (firstMentionTokens : Option (List String))
    (cache : String → Option TokenData) (env : Option String → TokenData) :
    Except JsError (MatchResult × EngineState) :=
  matchesFilters st swap (processFilters userFilters) firstMentionTokens userId cache env

/-- The durable `unique_tokens` table: (token_mint, token_symbol) rows,
keyed by the unique mint. -/
abbrev TokenStore := List (String × Option String)

/-- `isTokenKnown(tokenMint)`, database-railway.js lines 148-157 (happy
path; the catch clause covers database connection failures, outside this
model). -/
def isTokenKnown (store : TokenStore) (tokenMint : String) : Bool :=
  store.any fun p => p.1 = tokenMint

/-- `markTokenAsFirstMentioned(tokenMint, tokenSymbol)`, database-railway.js
lines 160-173: an INSERT with ON CONFLICT (token_mint) DO NOTHING, returning
true whether or not the row already existed (the duplicate-key outcome is
success). -/
def markTokenAsFirstMentioned (store : TokenStore) (tokenMint : String)
    (tokenSymbol : Option String) : Bool × TokenStore :=
  if isTokenKnown store tokenMint then (true, store)
  else (true, store ++ [(tokenMint, tokenSymbol)])

/-- One `if (mint) { if (!await isTokenKnown(mint)) set.add(mint) }` step of
the first-mention scan, bot.js lines 536-547 (Set.add keeps insertion order
and deduplicates). -/
def addIfNew (store : TokenStore) (acc : List String) (mint? : Option String) : List String :=
  match mint? with
  | none => acc
  | some m =>
    if m = "" then acc
    else if isTokenKnown store m then acc
    else if acc.contains m then acc
    else acc ++ [m]

/-- One swap of the first-mention scan: the input mint, then the output
mint (bot.js lines 533-547). -/
def detectStep (store : TokenStore) (acc : List String) (sw : Swap) : List String :=
  addIfNew store (addIfNew store acc (sw.inputToken.bind TokenRef.mint))
    (sw.outputToken.bind TokenRef.mint)

/-- The first-mention detection pass over the swap batch, bot.js
lines 531-548: a pure read of the durable store. -/
def detectFirstMentions (store : TokenStore) (swaps : List Swap) : List String :=
  swaps.foldl (detectStep store) []

/-- The per-user inner swap loop of `checkForNewSwaps`, bot.js lines
680-707 / 714-730: each swap is evaluated via `shouldNotify` and a matching
swap is delivered.  A thrown evaluation error is caught by the per-user
try/catch, abandoning that user's remaining swaps; engine-state mutations
already made persist.  Returns the final engine state and the delivered
swap ids. -/
def processUserSwaps (st : EngineState) (userId : Nat) (rows : List FilterRow)
    (swaps : List Swap) (firstMentionTokens : Option (List String))
    (cache : String → Option TokenData) (env : Option String → TokenData) :
    EngineState × List String :=
  match swaps with
  | [] => (st, [])
  | sw :: rest =>
    match shouldNotify st userId sw (some rows) firstMentionTokens cache env with
    | Except.error _ => (st, [])
    | Except.ok (r, st2) =>
      let tail := processUserSwaps st2 userId rows rest firstMentionTokens cache env
      (tail.1, (if r.matched then [swapIdOf sw] else []) ++ tail.2)

/-- The commit loop of `checkForNewSwaps`, bot.js lines 737-742: after all
users are processed, each first-mention mint is upserted into the durable
store with the symbol found in the per-cycle cache (`cachedData?.symbol ||
null`). -/
def commitFirstMentions (store : TokenStore) (mints : List String)
    (cache : String → Option TokenData) : TokenStore :=
  mints.foldl
    (fun s m => (markTokenAsFirstMentioned s m ((cache m).bind TokenData.symbol)).2)
    store

/-- The evaluate-and-commit portion of one poll cycle (`checkForNewSwaps`,
bot.js lines 513-747), after the swap batch and the token-data cache have
been fetched: detect first mentions (pure read of the store), evaluate every
user against every swap, and only then commit the first-mention markers.
Returns the new durable store, the new engine state, and the delivered
(user, swap id) pairs. -/
def runCycle (store : TokenStore) (engSt : EngineState) (users : List Nat)
    (rowsOf : Nat → List FilterRow) (swaps : List Swap)
    (cache : String → Option TokenData) (env : Option String → TokenData) :
    TokenStore × EngineState × List (Nat × String) :=
  let fm := detectFirstMentions store swaps
  let evaluated := users.foldl
    (fun (acc : EngineState × List (Nat × String)) uid =>
      let userRun := processUserSwaps acc.1 uid (rowsOf uid) swaps (some fm) cache env
      (userRun.1, acc.2 ++ userRun.2.map fun i => (uid, i)))
    (engSt, [])
  let store2 := commitFirstMentions store fm cache
  (store2, evaluated.1, evaluated.2)

/-- The conjunction of every guard of `matchesFilters` that precedes (in the
source's statement order) the user-level token / whale / minimum-purchase /
market-cap checks: notifications on, not a per-user duplicate, no spam-mint
or hardcoded-token hit, a relevant token present, not excluded by
first-mention-only mode, and not a hardcoded-blocklist whale.  The
SOL-stablecoin conversion test of lines 200-203 compares unawaited Promise
values with strings and is identically false, so it contributes no
conjunct. -/
def passesPreChecks (st : EngineState) (swap : Swap) (f : Filters)
    (firstMentionTokens : Option (List String)) (uid : Nat) : Bool :=
  f.notifications_enabled
  && !((stateGet st uid).contains (swapIdOf swap))
  && !(isSpamMint (swap.inputToken.bind TokenRef.mint)
       || isSpamMint (swap.outputToken.bind TokenRef.mint))
  && !(inHardTokenBlacklist (swap.inputToken.bind TokenRef.mint)
       || inHardTokenBlacklist (swap.outputToken.bind TokenRef.mint))
  && (relevantTokenOf swap).isSome
  && !(f.first_mention_only && !firstMentionFlag swap firstMentionTokens)
  && !(isHardcodedWhale swap.feePayer)

/-! Concrete inputs used by counterexamples and witnesses. -/

def zeroTokenData : TokenData :=
  { price := 0, marketCap := 0, priceChange24h := 0, isHardcodedSupply := false, symbol := none }

/-- An empty per-cycle cache (`tokenDataCache = null`). -/
def noCache : String → Option TokenData := fun _ => none

/-- A network oracle on which every lookup failed (every API helper returns
zeroed data on failure). -/
def zeroEnv : Option String → TokenData := fun _ => zeroTokenData

/-- An all-tokens profile with notifications switched on and no user lists. -/
def allOnFilters : Filters := { defaultFilters with notifications_enabled := true }

/-- The i-th of a family of pairwise distinct plain token-for-token swaps,
all matching `allOnFilters`. -/
def mkNumberedSwap (i : Nat) : Swap :=
  { signature := some ("s" ++ toString i)
    timestamp := i
    feePayer := some ("WhaleA")
    inputToken := some { mint := some ("MintAAA"), metadataSymbol := some ("AAA"), metadataName := none, amount := 1 }
    outputToken := some { mint := some ("MintBBB"), metadataSymbol := some ("BBB"), metadataName := none, amount := 1 } }

/-- One evaluation step for user 7 under `allOnFilters`, keeping the state. -/
def evalStep (st : EngineState) (sw : Swap) : EngineState :=
  match matchesFilters st sw allOnFilters none 7 noCache zeroEnv with
  | Except.ok (_, st2) => st2
  | Except.error _ => st

/-- User 7's delivery history after the 101 distinct matching swaps
`mkNumberedSwap 0 … mkNumberedSwap 100` (the 101st insertion triggers the
eviction of the oldest 50 ids, dropping s0). -/
def historyAfter101 : EngineState :=
  ((List.range 101).map mkNumberedSwap).foldl evalStep []

def usdcMint : String := "EPjFWdd5AufqSSqeM2qN1xzybapC8G4wEGGkZwyTDt1v"

/-- A SOL-to-USDC conversion swap: 2 SOL in, 440 USDC out. -/
def solUsdcSwap : Swap :=
  { signature := some ("sig-conv"), timestamp := 5, feePayer := some ("WhaleB")
    inputToken := some { mint := some solMint, metadataSymbol := some ("SOL"), metadataName := none, amount := 2 }
    outputToken := some { mint := some usdcMint, metadataSymbol := some ("USDC"), metadataName := none, amount := 440 } }

/-- The spec's end-to-end example swap: buying SOL with 100 USDC. -/
def buySolSwap : Swap :=
  { signature := some ("sig-e2e"), timestamp := 9, feePayer := some ("WhaleC")
    inputToken := some { mint := some usdcMint, metadataSymbol := some ("USDC"), metadataName := none, amount := 100 }
    outputToken := some { mint := some solMint, metadataSymbol := some ("SOL"), metadataName := none, amount := (1 : ℚ) / 2 } }

/-- The spec's end-to-end example profile: TOKEN_FILTER mode with whitelist
[SOL] and notifications on. -/
def tokenFilterSolProfile : Filters :=
  { defaultFilters with monitor_all := false, tokens := ["SOL"], notifications_enabled := true }

/-- A cache carrying a known low market cap for the mint MintBBB. -/
def lowCapCache : String → Option TokenData := fun m =>
  if m = "MintBBB" then
    some { price := 1, marketCap := 50, priceChange24h := 0, isHardcodedSupply := false, symbol := some ("BBB") }
  else none

/-- An all-tokens profile with notifications on and a 100 USD market-cap
ceiling. -/
def capFilters : Filters :=
  { defaultFilters with notifications_enabled := true, max_market_cap := some 100 }

/-! Helper lemmas. -/

theorem stateGet_stateSet (st : EngineState) (u : Nat) (l : List String) :
    stateGet (stateSet st u l) u = l := by
  simp [stateSet, stateGet]

/-- Auxiliary: an early return of `matchesFilters` reports no match and
leaves the history unchanged. -/
theorem matchEarly {st st2 : EngineState} {r : MatchResult} {P : Prop}
    (h : (Except.ok (⟨false, false⟩, st) : Except JsError (MatchResult × EngineState))
          = Except.ok (r, st2)) :
    (r.matched = false ∧ st2 = st) ∨ P := by
  injection h with h1
  injection h1 with h2 h3
  exact Or.inl ⟨h2 ▸ rfl, h3.symm⟩

set_option maxHeartbeats 1000000 in
/-- Case analysis of the delivery-history mutation performed by
`matchesFilters`: a successful call either leaves the history untouched and
reports no match, or reports a match and appends the swap id to the caller's
history, dropping the oldest 50 ids when the set exceeds 100. -/
theorem matchesFilters_state_cases (st : EngineState) (swap : Swap) (f : Filters)
    (fm : Option (List String)) (uid : Nat) (cache : String → Option TokenData)
    (env : Option String → TokenData) (r : MatchResult) (st2 : EngineState)
    (hres : matchesFilters st swap f fm uid cache env = Except.ok (r, st2)) :
    (r.matched = false ∧ st2 = st) ∨
    (r.matched = true ∧ st2 = stateSet st uid
       (if (stateGet st uid ++ [swapIdOf swap]).length > 100
        then (stateGet st uid ++ [swapIdOf swap]).drop 50
        else stateGet st uid ++ [swapIdOf swap])) := by
  simp only [matchesFilters] at hres
  split at hres
  · exact matchEarly hres
  split at hres
  · exact matchEarly hres
  split at hres
  · exact matchEarly hres
  split at hres
  · exact matchEarly hres
  split at hres
  · exact matchEarly hres
  split at hres
  · exact matchEarly hres
  split at hres
  · exact matchEarly hres
  split at hres
  · exact absurd hres (by simp)
  split at hres
  · exact matchEarly hres
  split at hres
  all_goals split at hres
  all_goals
    first
    | (injection hres with h1
       injection h1 with h2 h3
       exact Or.inr ⟨h2 ▸ rfl, h3.symm⟩)
    | (rename_i hok
       injection hres with h1
       injection h1 with h2 h3
       refine Or.inl ⟨?_, h3.symm⟩
       rw [← h2]
       simpa using hok)

/-! The claims. -/

/-- Claim C2 (confirmed): when the processed profile has
notifications_enabled = false, matchesFilters returns matches = false and
isFirstMention = false for every swap, and the delivery history is returned
unchanged. -/
theorem C2_notifications_off (st : EngineState) (swap : Swap) (f : Filters)
    (fm : Option (List String)) (uid : Nat) (cache : String → Option TokenData)
    (env : Option String → TokenData) (h : f.notifications_enabled = false) :
    matchesFilters st swap f fm uid cache env = Except.ok (⟨false, false⟩, st) := by
  simp [matchesFilters, h]

/-- Witness for C2 at a concrete input: the default (all-off) profile
rejects the SOL-to-USDC swap without touching the empty history. -/
theorem C2_notifications_off_witness :
    matchesFilters [] solUsdcSwap defaultFilters none 3 noCache zeroEnv
      = Except.ok (⟨false, false⟩, []) :=
  C2_notifications_off [] solUsdcSwap defaultFilters none 3 noCache zeroEnv rfl

/-- Claim C3 (code_bug): evaluating the code at the failing input.  The swap
converts 2 SOL into 440 USDC, yet an enabled all-tokens user matches it:
filters.js lines 197-198 call the async getTokenSymbol without await, so the
conversion test at lines 200-203 compares Promise objects against strings
and never rejects, contradicting the source's own comment (skip
SOL-stablecoin conversions) and the spec. -/
theorem C3_conversion_not_rejected :
    matchesFilters [] solUsdcSwap allOnFilters none 7 noCache zeroEnv
      = Except.ok (⟨true, false⟩, [(7, ["sig-conv"])]) := by
  rfl

set_option maxRecDepth 8000 in
/-- Claim C1 (corrected), counterexample to the stated idempotence: the pair
(user 7, swap id s0) matches and is recorded; after 100 further distinct
matched swaps the 101st insertion evicts the oldest 50 ids including s0, and
the very same (user, swap id) pair then matches again, which would deliver a
second notification for the same swap to the same user within one process
lifetime. -/
theorem C1_counterexample :
    matchesFilters [] (mkNumberedSwap 0) allOnFilters none 7 noCache zeroEnv
      = Except.ok (⟨true, false⟩, [(7, ["s0"])])
    ∧ (matchesFilters historyAfter101 (mkNumberedSwap 0) allOnFilters none 7 noCache zeroEnv).map
        (fun p => p.1.matched) = Except.ok true := by
  exact ⟨rfl, rfl⟩

/-- Claim C1 (corrected, amended): once matches = true has been returned for
a (userId, swapId) pair, later calls with the same pair return matches =
false for as long as that swap id remains in the user's recorded set (a
recorded id rejects immediately); the id can however be evicted, because on
every matching call the set is appended and, when it exceeds 100 ids, the
oldest 50 are dropped, so the recorded set holds at most 100 ids after every
call that started within the bound. -/
theorem C1_amended :
    (∀ st swap f fm uid cache env, (stateGet st uid).contains (swapIdOf swap) = true →
       matchesFilters st swap f fm uid cache env = Except.ok (⟨false, false⟩, st))
    ∧ (∀ st swap f fm uid cache env r st2,
        matchesFilters st swap f fm uid cache env = Except.ok (r, st2) →
        (stateGet st uid).length ≤ 100 → (stateGet st2 uid).length ≤ 100)
    ∧ (∀ st swap f fm uid cache env r st2,
        matchesFilters st swap f fm uid cache env = Except.ok (r, st2) →
        r.matched = true →
        stateGet st2 uid =
          (if (stateGet st uid ++ [swapIdOf swap]).length > 100
           then (stateGet st uid ++ [swapIdOf swap]).drop 50
           else stateGet st uid ++ [swapIdOf swap])) := by
  refine ⟨?_, ?_, ?_⟩
  · intro st swap f fm uid cache env h
    simp only [matchesFilters]
    split <;> rfl
  · intro st swap f fm uid cache env r st2 hres hlen
    rcases matchesFilters_state_cases st swap f fm uid cache env r st2 hres with
      ⟨_, rfl⟩ | ⟨_, rfl⟩
    · exact hlen
    · rw [stateGet_stateSet]
      split <;> rename_i hsp <;>
        simp only [List.length_append, List.length_drop, List.length_singleton] at hsp ⊢ <;>
        omega
  · intro st swap f fm uid cache env r st2 hres hm
    rcases matchesFilters_state_cases st swap f fm uid cache env r st2 hres with
      ⟨hf, _⟩ | ⟨_, rfl⟩
    · rw [hm] at hf; cases hf
    · exact stateGet_stateSet st uid _

/-- Witness for C1_amended at a concrete input: with s0 already recorded for
user 7, re-evaluating the swap with id s0 is rejected with the history
unchanged. -/
theorem C1_amended_witness :
    matchesFilters [(7, ["s0"])] (mkNumberedSwap 0) allOnFilters none 7 noCache zeroEnv
      = Except.ok (⟨false, false⟩, [(7, ["s0"])]) :=
  C1_amended.1 [(7, ["s0"])] (mkNumberedSwap 0) allOnFilters none 7 noCache zeroEnv (by decide)

/-- Claim C4 (corrected), counterexample to the spec's end-to-end example:
the TOKEN_FILTER user with whitelist [SOL] and notifications on, evaluated
on the swap buying SOL with 100 USDC, does not get matches = true with value
100 — the evaluation throws a TypeError, because checkTokenWhitelist invokes
the async getTokenSymbol without await and calls .toLowerCase() on the
resulting Promise (filters.js line 377).  (Independently of the throw, the
code classifies the swap as a SELL — output is SOL — so the token checked
against the whitelist would be the USDC input, not the SOL output.) -/
theorem C4_counterexample :
    matchesFilters [] buySolSwap tokenFilterSolProfile none 7 noCache zeroEnv
      = Except.error (JsError.typeError ("this.getTokenSymbol(...).toLowerCase is not a function")) := by
  rfl

/-- Claim C4 (corrected, amended): in TOKEN_FILTER mode an empty whitelist
rejects every swap, and a non-empty whitelist makes the token check throw a
TypeError (the unawaited async symbol lookup), so no swap ever matches; in
ALL_TOKENS and FIRST_MENTION_ONLY modes an empty blacklist passes every
swap and a non-empty blacklist likewise throws.  The spec's end-to-end
example — TOKEN_FILTER user with whitelist [SOL], swap buying SOL with 100
USDC — therefore ends in a thrown TypeError rather than matches = true,
although the swap's USD value does evaluate to 100 (stablecoin input). -/
theorem C4_amended :
    (∀ t : TokenRef, checkTokenWhitelist t [] = Except.ok false)
    ∧ (∀ (t : TokenRef) (l : List String), l ≠ [] →
        ∃ e, checkTokenWhitelist t l = Except.error e)
    ∧ (∀ t : TokenRef, checkBlacklist t [] = Except.ok true)
    ∧ (∀ (t : TokenRef) (l : List String), l ≠ [] →
        ∃ e, checkBlacklist t l = Except.error e)
    ∧ calculateSwapValueUSD buySolSwap noCache zeroEnv = 100
    ∧ (∃ e, matchesFilters [] buySolSwap tokenFilterSolProfile none 7 noCache zeroEnv
        = Except.error e) := by
  refine ⟨fun t => rfl, ?_, fun t => rfl, ?_, rfl, ⟨_, rfl⟩⟩
  · intro t l hl
    exact ⟨JsError.typeError ("this.getTokenSymbol(...).toLowerCase is not a function"),
      by simp [checkTokenWhitelist, List.isEmpty_iff, hl]⟩
  · intro t l hl
    exact ⟨JsError.typeError ("this.getTokenSymbol(...).toLowerCase is not a function"),
      by simp [checkBlacklist, List.isEmpty_iff, hl]⟩

/-- Witness for C4_amended at a concrete input: a non-empty whitelist makes
the token check throw. -/
theorem C4_amended_witness :
    ∃ e, checkTokenWhitelist
        { mint := some ("MintBBB"), metadataSymbol := some ("BBB"), metadataName := none, amount := 1 }
        ["SOL"] = Except.error e :=
  C4_amended.2.1 _ ["SOL"] (by simp)

/-- Auxiliary: an early return of `matchesFilters` cannot carry
matched = true. -/
theorem matchEarlyFalse {st st2 : EngineState} {r : MatchResult} {P : Prop}
    (h : (Except.ok (⟨false, false⟩, st) : Except JsError (MatchResult × EngineState))
          = Except.ok (r, st2))
    (hm : r.matched = true) : P := by
  injection h with h1
  injection h1 with h2 h3
  rw [← h2] at hm
  exact absurd hm (by simp)

set_option maxHeartbeats 1000000 in
/-- Auxiliary: when a match is reported while the market-cap filter is set
and positive, the market-cap check on the relevant token passed. -/
theorem matchesFilters_matched_marketCap (st : EngineState) (swap : Swap) (f : Filters)
    (fm : Option (List String)) (uid : Nat) (cache : String → Option TokenData)
    (env : Option String → TokenData) (r : MatchResult) (st2 : EngineState) (m : ℚ)
    (rt : TokenRef)
    (hres : matchesFilters st swap f fm uid cache env = Except.ok (r, st2))
    (hm : r.matched = true) (hmax : f.max_market_cap = some m) (hpos : 0 < m)
    (hrt : relevantTokenOf swap = some rt) :
    checkMarketCap rt (some m) cache env = true := by
  simp only [matchesFilters] at hres
  split at hres
  · exact matchEarlyFalse hres hm
  split at hres
  · exact matchEarlyFalse hres hm
  split at hres
  · exact matchEarlyFalse hres hm
  split at hres
  · exact matchEarlyFalse hres hm
  split at hres
  · exact matchEarlyFalse hres hm
  split at hres
  · exact matchEarlyFalse hres hm
  · rename_i relevantToken heq
    rw [hrt] at heq
    injection heq with heq
    subst heq
    split at hres
    · exact matchEarlyFalse hres hm
    split at hres
    · exact absurd hres (by simp)
    split at hres
    · exact matchEarlyFalse hres hm
    split at hres
    · split at hres
      · rename_i hok
        rcases (Bool.and_eq_true _ _).mp hok with ⟨h1, hmc⟩
        rw [hmax] at hmc
        exact hmc
      · rename_i hok
        injection hres with h1
        injection h1 with h2 h3
        rw [← h2] at hm
        exact absurd hm (by simpa using hok)
    · rename_i hguard
      rw [hmax] at hguard
      simp [hpos] at hguard

/-- Claim C5 (confirmed): when maxMarketCapUSD is set and positive, a swap
matches only if the relevant token's resolved market cap is non-zero — hence
strictly positive under the data-model invariant marketCap at least 0 — and
at most the bound (so a resolved market cap of 0 never matches); when the
filter is unset or non-positive the market-cap check always passes. -/
theorem C5_market_cap_filter :
    (∀ st swap f fm uid cache env r st2 m rt,
       f.max_market_cap = some m → 0 < m →
       matchesFilters st swap f fm uid cache env = Except.ok (r, st2) →
       r.matched = true → relevantTokenOf swap = some rt →
       0 ≤ (resolveTokenData cache env rt.mint).marketCap →
       0 < (resolveTokenData cache env rt.mint).marketCap ∧
         (resolveTokenData cache env rt.mint).marketCap ≤ m)
    ∧ (∀ (t : TokenRef) cache env m, m ≤ 0 → checkMarketCap t (some m) cache env = true)
    ∧ (∀ (t : TokenRef) cache env, checkMarketCap t none cache env = true) := by
  refine ⟨?_, ?_, fun t cache env => rfl⟩
  · intro st swap f fm uid cache env r st2 m rt hmax hpos hres hm hrt hnn
    have hmc := matchesFilters_matched_marketCap st swap f fm uid cache env r st2 m rt
      hres hm hmax hpos hrt
    simp only [checkMarketCap] at hmc
    rw [if_neg (not_le.mpr hpos)] at hmc
    split at hmc <;> split at hmc
    · exact absurd hmc (by simp)
    · rename_i hz
      exact ⟨lt_of_le_of_ne hnn (Ne.symm hz), by simpa using hmc⟩
    · exact absurd hmc (by simp)
    · rename_i hz
      exact ⟨lt_of_le_of_ne hnn (Ne.symm hz), by simpa using hmc⟩
  · intro t cache env m hm
    simp [checkMarketCap, hm]

/-- Witness for C5 at a concrete input: under `capFilters`
(max_market_cap = 100) the swap buying MintBBB matches with the cached
market cap 50, which is indeed positive and at most 100. -/
theorem C5_market_cap_filter_witness :
    0 < (resolveTokenData lowCapCache zeroEnv (some ("MintBBB"))).marketCap ∧
      (resolveTokenData lowCapCache zeroEnv (some ("MintBBB"))).marketCap ≤ 100 :=
  C5_market_cap_filter.1 [] (mkNumberedSwap 0) capFilters none 7 lowCapCache zeroEnv
    ⟨true, false⟩ [(7, ["s0"])] 100
    { mint := some ("MintBBB"), metadataSymbol := some ("BBB"), metadataName := none, amount := 1 }
    rfl (by norm_num) rfl rfl rfl (by norm_num [resolveTokenData, lowCapCache])

/-- Auxiliary: the result object of an early return of `matchesFilters`. -/
theorem matchEarlyEq {st st2 : EngineState} {r : MatchResult}
    (h : (Except.ok (⟨false, false⟩, st) : Except JsError (MatchResult × EngineState))
          = Except.ok (r, st2)) : r = ⟨false, false⟩ := by
  injection h with h1
  injection h1 with h2 h3
  exact h2.symm

set_option maxHeartbeats 1000000 in
/-- Claim C10 (confirmed): for every successful evaluation, the returned
isFirstMention flag equals the computed first-mention flag gated by all the
checks that precede the user-level token / whale / minimum-purchase /
market-cap checks: a rejection by notifications-off, per-user duplicate, the
(dead) conversion filter, spam-prefix or hardcoded token blocklist, missing
relevant token, first-mention-only mode, or the hardcoded whale blocklist
returns isFirstMention = false even when a mint is in the first-mention set,
while the later user-level rejections (and matches) return the computed
flag. -/
theorem C10_first_mention_gating (st : EngineState) (swap : Swap) (f : Filters)
    (fm : Option (List String)) (uid : Nat) (cache : String → Option TokenData)
    (env : Option String → TokenData) (r : MatchResult) (st2 : EngineState)
    (hres : matchesFilters st swap f fm uid cache env = Except.ok (r, st2)) :
    r.isFirstMention = (passesPreChecks st swap f fm uid && firstMentionFlag swap fm) := by
  simp only [matchesFilters] at hres
  split at hres
  · rename_i hc
    rw [matchEarlyEq hres]
    simp at hc
    simp [passesPreChecks, hc]
  split at hres
  · rename_i hc
    rw [matchEarlyEq hres]
    simp at hc
    simp [passesPreChecks, hc]
  split at hres
  · rename_i hc
    exact absurd hc (by simp [jsEqStr, jsMemList])
  split at hres
  · rename_i hc
    rw [matchEarlyEq hres]
    simp [passesPreChecks, hc]
  split at hres
  · rename_i hc
    rw [matchEarlyEq hres]
    simp [passesPreChecks, hc]
  split at hres
  · rename_i heq
    rw [matchEarlyEq hres]
    simp [passesPreChecks, heq]
  · rename_i relevantToken heq
    split at hres
    · rename_i hc
      rw [matchEarlyEq hres]
      simp [passesPreChecks, hc]
    split at hres
    · exact absurd hres (by simp)
    split at hres
    · rename_i hc
      rw [matchEarlyEq hres]
      simp [passesPreChecks, hc]
    split at hres <;> split at hres <;>
      (injection hres with h1
       injection h1 with h2 h3
       rw [← h2]
       simp only [passesPreChecks]
       simp_all)

/-- Witness for C10 at a concrete input: a matched swap whose input mint is
in the first-mention set carries isFirstMention = true, which equals the
gated computed flag. -/
theorem C10_first_mention_gating_witness :
    (⟨true, true⟩ : MatchResult).isFirstMention
      = (passesPreChecks [] (mkNumberedSwap 0) allOnFilters (some ["MintAAA"]) 7
          && firstMentionFlag (mkNumberedSwap 0) (some ["MintAAA"])) :=
  C10_first_mention_gating [] (mkNumberedSwap 0) allOnFilters (some ["MintAAA"]) 7
    noCache zeroEnv ⟨true, true⟩ [(7, ["s0"])] rfl

/-- Claim C6 (confirmed): USD valuation tries the input token first and then
the output token; a recognized stablecoin amount is the USD value directly; a
SOL amount is multiplied by the resolved SOL price with the fixed fallback
220 when that price is 0 (unresolved); any other token is multiplied by its
resolved price when that price is positive; and when the input side yields
no value the output side is used, with 0 when neither side yields one. -/
theorem C6_usd_valuation (swap : Swap) (cache : String → Option TokenData)
    (env : Option String → TokenData) :
    (∀ t s, swap.inputToken = some t → t.metadataSymbol = some s →
      valueStablecoins.contains s = true →
      calculateSwapValueUSD swap cache env = t.amount)
    ∧ (∀ t, swap.inputToken = some t → t.metadataSymbol = some ("SOL") →
      calculateSwapValueUSD swap cache env =
        t.amount * (if (resolveTokenData cache env (some solMint)).price = 0 then 220
                    else (resolveTokenData cache env (some solMint)).price))
    ∧ (∀ t s m, swap.inputToken = some t → t.metadataSymbol = some s → s ≠ "" →
      valueStablecoins.contains s = false → s ≠ "SOL" → t.mint = some m → m ≠ "" →
      0 < (resolveTokenData cache env (some m)).price →
      calculateSwapValueUSD swap cache env
        = t.amount * (resolveTokenData cache env (some m)).price)
    ∧ (tryTokenValueUSD cache env swap.inputToken = none →
      calculateSwapValueUSD swap cache env =
        (tryTokenValueUSD cache env swap.outputToken).getD 0) := by
  refine ⟨?_, ?_, ?_, ?_⟩
  · intro t s hin hsym hmem
    have hne : ¬(s = "") := fun h => by subst h; exact absurd hmem (by decide)
    simp at hmem
    simp [calculateSwapValueUSD, tryTokenValueUSD, hin, hsym, hmem, hne]
  · intro t hin hsym
    simp [calculateSwapValueUSD, tryTokenValueUSD, hin, hsym, valueStablecoins]
  · intro t s m hin hsym hne hnmem hnsol hmint hmne hpos
    simp at hnmem
    simp [calculateSwapValueUSD, tryTokenValueUSD, hin, hsym, hne, hnmem, hnsol,
      hmint, hmne, hpos]
  · intro hnone
    simp only [calculateSwapValueUSD, hnone]
    cases htry : tryTokenValueUSD cache env swap.outputToken <;> simp [htry]

/-- Witness for C6 at a concrete input: the swap paying 100 USDC has USD
value 100 (stablecoin input taken directly). -/
theorem C6_usd_valuation_witness :
    calculateSwapValueUSD buySolSwap noCache zeroEnv = 100 :=
  (C6_usd_valuation buySolSwap noCache zeroEnv).1
    { mint := some usdcMint, metadataSymbol := some ("USDC"), metadataName := none, amount := 100 }
    ("USDC") rfl rfl rfl

/-- `t.metadataSymbol` is neither a recognized stablecoin (of the buy rule's
list) nor SOL; an absent symbol counts as neither. -/
def symbolNotStableNorSol (t : TokenRef) : Bool :=
  (match t.metadataSymbol with
   | some s => !(buyStablecoins.contains s)
   | none => true)
  && decide (t.metadataSymbol ≠ some ("SOL"))

/-- Claim C7 (confirmed): a swap is classified as a BUY exactly when it has
an output token whose symbol is neither a recognized stablecoin nor SOL;
every other swap (stablecoin or SOL output, or no output token at all) is a
SELL. -/
theorem C7_buy_classification (swap : Swap) :
    (swap.outputToken = none → isBuyTransaction swap = false)
    ∧ ∀ t, swap.outputToken = some t →
        (isBuyTransaction swap = symbolNotStableNorSol t) := by
  constructor
  · intro h
    simp [isBuyTransaction, h]
  · intro t ht
    simp only [isBuyTransaction, symbolNotStableNorSol, ht]
    cases hs : t.metadataSymbol with
    | none => simp
    | some s => by_cases hmem : buyStablecoins.contains s = true <;> simp_all

/-- Witness for C7 at a concrete input: the swap receiving MintBBB (symbol
BBB) is classified as a BUY. -/
theorem C7_buy_classification_witness :
    isBuyTransaction (mkNumberedSwap 0)
      = symbolNotStableNorSol
          { mint := some ("MintBBB"), metadataSymbol := some ("BBB"), metadataName := none, amount := 1 } :=
  (C7_buy_classification (mkNumberedSwap 0)).2
    { mint := some ("MintBBB"), metadataSymbol := some ("BBB"), metadataName := none, amount := 1 } rfl

/-- Auxiliary: one detection step only ever adds mints unknown to the
store. -/
theorem addIfNew_subset (store : TokenStore) (acc : List String) (m? : Option String)
    (x : String) (hx : x ∈ addIfNew store acc m?) :
    x ∈ acc ∨ isTokenKnown store x = false := by
  cases m? with
  | none => exact Or.inl hx
  | some m =>
    simp only [addIfNew] at hx
    split at hx
    · exact Or.inl hx
    split at hx
    · exact Or.inl hx
    split at hx
    · exact Or.inl hx
    · rcases List.mem_append.mp hx with h | h
      · exact Or.inl h
      · simp at h
        subst h
        rename_i hk hmem
        exact Or.inr (by simpa using hk)

/-- Auxiliary: one detection step preserves duplicate-freeness (Set.add). -/
theorem addIfNew_nodup (store : TokenStore) (acc : List String) (m? : Option String)
    (h : acc.Nodup) : (addIfNew store acc m?).Nodup := by
  cases m? with
  | none => exact h
  | some m =>
    simp only [addIfNew]
    split
    · exact h
    split
    · exact h
    split
    · exact h
    · rename_i hmem
      simp at hmem
      simp [List.nodup_append, h, hmem]

/-- Auxiliary: the detection fold yields a duplicate-free list. -/
theorem detectAux_nodup (store : TokenStore) (swaps : List Swap) (acc : List String)
    (h : acc.Nodup) : (swaps.foldl (detectStep store) acc).Nodup := by
  induction swaps generalizing acc with
  | nil => exact h
  | cons sw rest ih =>
    exact ih _ (addIfNew_nodup _ _ _ (addIfNew_nodup _ _ _ h))

/-- Auxiliary: every mint produced by the detection fold is unknown to the
store it read. -/
theorem detectAux_unknown (store : TokenStore) (swaps : List Swap) (acc : List String)
    (hacc : ∀ x ∈ acc, isTokenKnown store x = false) :
    ∀ x ∈ swaps.foldl (detectStep store) acc, isTokenKnown store x = false := by
  induction swaps generalizing acc with
  | nil => exact hacc
  | cons sw rest ih =>
    refine ih _ ?_
    intro x hx
    simp only [detectStep] at hx
    rcases addIfNew_subset _ _ _ _ hx with h | h
    · rcases addIfNew_subset _ _ _ _ h with h2 | h2
      · exact hacc x h2
      · exact h2
    · exact h

/-- Auxiliary: after committing a mint it is known. -/
theorem isTokenKnown_mark_self (store : TokenStore) (m : String) (sym : Option String) :
    isTokenKnown (markTokenAsFirstMentioned store m sym).2 m = true := by
  simp only [markTokenAsFirstMentioned]
  split
  · rename_i h
    exact h
  · simp [isTokenKnown]

/-- Auxiliary: committing never forgets a known mint. -/
theorem isTokenKnown_mark_mono (store : TokenStore) (m x : String) (sym : Option String)
    (h : isTokenKnown store x = true) :
    isTokenKnown (markTokenAsFirstMentioned store m sym).2 x = true := by
  simp only [markTokenAsFirstMentioned]
  split
  · exact h
  · simp only [isTokenKnown, List.any_append] at h ⊢
    rw [h]
    rfl

/-- Auxiliary: the commit fold never forgets a known mint. -/
theorem commitFirstMentions_known_mono (store : TokenStore) (l : List String)
    (cache : String → Option TokenData) (x : String)
    (h : isTokenKnown store x = true) :
    isTokenKnown (commitFirstMentions store l cache) x = true := by
  induction l generalizing store with
  | nil => exact h
  | cons a rest ih => exact ih _ (isTokenKnown_mark_mono _ _ _ _ h)

/-- Auxiliary: unfolding one step of the commit fold. -/
theorem commitFirstMentions_cons (store : TokenStore) (a : String) (rest : List String)
    (cache : String → Option TokenData) :
    commitFirstMentions store (a :: rest) cache
      = commitFirstMentions (markTokenAsFirstMentioned store a
          ((cache a).bind TokenData.symbol)).2 rest cache := rfl

/-- Auxiliary: after the commit fold every committed mint is known. -/
theorem commitFirstMentions_mem (store : TokenStore) (l : List String)
    (cache : String → Option TokenData) (x : String) (hx : x ∈ l) :
    isTokenKnown (commitFirstMentions store l cache) x = true := by
  induction l generalizing store with
  | nil => cases hx
  | cons a rest ih =>
    rw [commitFirstMentions_cons]
    rcases List.mem_cons.mp hx with h | h
    · subst h
      exact commitFirstMentions_known_mono _ rest cache x (isTokenKnown_mark_self _ _ _)
    · exact ih _ h

/-- Claim C8 (confirmed): first-mention lifecycle.  The commit operation is
an idempotent upsert returning success even for an already-known mint (which
it leaves unchanged); detection is a pure read producing each unknown mint
exactly once; the cycle's final store is exactly the commit fold — run after
the whole per-user evaluation, which never touches the store — applied to
the first-mention set computed from the initial store; and afterwards every
detected mint is durably known. -/
theorem C8_first_mention_lifecycle :
    (∀ (store : TokenStore) (m : String) (sym : Option String),
       isTokenKnown store m = true → markTokenAsFirstMentioned store m sym = (true, store))
    ∧ (∀ (store : TokenStore) (m : String) (sym : Option String),
       (markTokenAsFirstMentioned store m sym).1 = true)
    ∧ (∀ (store : TokenStore) (swaps : List Swap), (detectFirstMentions store swaps).Nodup)
    ∧ (∀ (store : TokenStore) (swaps : List Swap) (m : String),
       m ∈ detectFirstMentions store swaps → isTokenKnown store m = false)
    ∧ (∀ store engSt users rowsOf swaps cache env,
       (runCycle store engSt users rowsOf swaps cache env).1
         = commitFirstMentions store (detectFirstMentions store swaps) cache)
    ∧ (∀ store engSt users rowsOf swaps cache env m,
       m ∈ detectFirstMentions store swaps →
       isTokenKnown (runCycle store engSt users rowsOf swaps cache env).1 m = true) := by
  refine ⟨?_, ?_, ?_, ?_, ?_, ?_⟩
  · intro store m sym h
    simp [markTokenAsFirstMentioned, h]
  · intro store m sym
    rw [markTokenAsFirstMentioned]
    split <;> rfl
  · intro store swaps
    exact detectAux_nodup store swaps [] List.nodup_nil
  · intro store swaps m hm
    exact detectAux_unknown store swaps [] (by intro x hx; cases hx) m hm
  · intro store engSt users rowsOf swaps cache env
    rfl
  · intro store engSt users rowsOf swaps cache env m hm
    exact commitFirstMentions_mem store (detectFirstMentions store swaps) cache m hm

/-- Witness for C8 at a concrete input: after a cycle over one swap trading
MintAAA for MintBBB against an empty store, MintAAA is durably known. -/
theorem C8_first_mention_lifecycle_witness :
    isTokenKnown (runCycle [] [] [7] (fun _ => []) [mkNumberedSwap 0] noCache zeroEnv).1
      ("MintAAA") = true :=
  C8_first_mention_lifecycle.2.2.2.2.2 [] [] [7] (fun _ => []) [mkNumberedSwap 0]
    noCache zeroEnv ("MintAAA") (by decide)

/-- Auxiliary: the filter-row fold leaves untouched any profile field that
none of the rows writes. -/
theorem foldl_applyFilterRow_preserve {α : Type} (proj : Filters → α)
    (rows : List FilterRow) (f : Filters)
    (h : ∀ (g : Filters) (r : FilterRow), r ∈ rows → proj (applyFilterRow g r) = proj g) :
    proj (rows.foldl applyFilterRow f) = proj f := by
  induction rows generalizing f with
  | nil => rfl
  | cons a l ih =>
    rw [List.foldl_cons, ih _ (fun g r hr => h g r (List.mem_cons_of_mem a hr)),
      h f a (List.mem_cons_self a l)]

set_option maxHeartbeats 1000000 in
/-- Claim C9 (confirmed): a null / undefined / non-array input produces the
default profile (empty token whitelist, token blacklist and whale blacklist;
min_purchase and max_market_cap null; monitor_all true; notifications and
first-mention-only off), and every field keeps that same default whenever
its filter type is absent from the row list. -/
theorem C9_default_profile :
    processFilters none
      = (⟨[], [], [], none, none, true, false, false⟩ : Filters)
    ∧ ∀ rows : List FilterRow,
      ((∀ r ∈ rows, r.filter_type ≠ "token_whitelist") →
        (processFilters (some rows)).tokens = [])
      ∧ ((∀ r ∈ rows, r.filter_type ≠ "token_blacklist") →
        (processFilters (some rows)).blacklist = [])
      ∧ ((∀ r ∈ rows, r.filter_type ≠ "whale_blacklist") →
        (processFilters (some rows)).whale_blacklist = [])
      ∧ ((∀ r ∈ rows, r.filter_type ≠ "min_purchase") →
        (processFilters (some rows)).min_purchase = none)
      ∧ ((∀ r ∈ rows, r.filter_type ≠ "max_market_cap") →
        (processFilters (some rows)).max_market_cap = none)
      ∧ ((∀ r ∈ rows, r.filter_type ≠ "monitor_all") →
        (processFilters (some rows)).monitor_all = true)
      ∧ ((∀ r ∈ rows, r.filter_type ≠ "notifications_enabled") →
        (processFilters (some rows)).notifications_enabled = false)
      ∧ ((∀ r ∈ rows, r.filter_type ≠ "first_mention_only") →
        (processFilters (some rows)).first_mention_only = false) := by
  refine ⟨rfl, ?_⟩
  intro rows
  refine ⟨?_, ?_, ?_, ?_, ?_, ?_, ?_, ?_⟩
  · intro hne
    exact foldl_applyFilterRow_preserve Filters.tokens rows defaultFilters
      (by
        intro g r hr
        have hx := hne r hr
        simp only [applyFilterRow]
        split_ifs <;> first | rfl | exact absurd (by assumption) hx)
  · intro hne
    exact foldl_applyFilterRow_preserve Filters.blacklist rows defaultFilters
      (by
        intro g r hr
        have hx := hne r hr
        simp only [applyFilterRow]
        split_ifs <;> first | rfl | exact absurd (by assumption) hx)
  · intro hne
    exact foldl_applyFilterRow_preserve Filters.whale_blacklist rows defaultFilters
      (by
        intro g r hr
        have hx := hne r hr
        simp only [applyFilterRow]
        split_ifs <;> first | rfl | exact absurd (by assumption) hx)
  · intro hne
    exact foldl_applyFilterRow_preserve Filters.min_purchase rows defaultFilters
      (by
        intro g r hr
        have hx := hne r hr
        simp only [applyFilterRow]
        split_ifs <;> first | rfl | exact absurd (by assumption) hx)
  · intro hne
    exact foldl_applyFilterRow_preserve Filters.max_market_cap rows defaultFilters
      (by
        intro g r hr
        have hx := hne r hr
        simp only [applyFilterRow]
        split_ifs <;> first | rfl | exact absurd (by assumption) hx)
  · intro hne
    exact foldl_applyFilterRow_preserve Filters.monitor_all rows defaultFilters
      (by
        intro g r hr
        have hx := hne r hr
        simp only [applyFilterRow]
        split_ifs <;> first | rfl | exact absurd (by assumption) hx)
  · intro hne
    exact foldl_applyFilterRow_preserve Filters.notifications_enabled rows defaultFilters
      (by
        intro g r hr
        have hx := hne r hr
        simp only [applyFilterRow]
        split_ifs <;> first | rfl | exact absurd (by assumption) hx)
  · intro hne
    exact foldl_applyFilterRow_preserve Filters.first_mention_only rows defaultFilters
      (by
        intro g r hr
        have hx := hne r hr
        simp only [applyFilterRow]
        split_ifs <;> first | rfl | exact absurd (by assumption) hx)

/-- Witness for C9 at a concrete input: a row list holding only a whitelist
entry leaves notifications_enabled at its default false. -/
theorem C9_default_profile_witness :
    (processFilters (some [⟨"token_whitelist", "SOL"⟩])).notifications_enabled = false :=
  ((C9_default_profile.2 [⟨"token_whitelist", "SOL"⟩]).2.2.2.2.2.2.1) (by decide)

end WhaleBot
